import Mathlib

/-!
Verification of the Option-Pricing repository (Black-Scholes analytic pricer,
Monte-Carlo simulation pricer, parameter estimation, put-call parity check).

The Python sources are shallowly embedded over the reals:
* `EuropeanOptionPricing` embeds `option_pricing/european_option_pricing.py`,
* `AmericanOptionPricing` embeds `option_pricing/american_option_pricing.py`,
* `OptionPricingBase` embeds `option_pricing/base_option_pricing.py`.

Modelling conventions:
* `scipy.stats.norm.cdf (x, 0.0, 1.0)` is the standard normal CDF, embedded as the
  measure of the interval `Iic x` under `gaussianReal 0 1`.
* The per-trial draws of `random.gauss(0.0, 1.0)` in the simulation pricer are made
  explicit as an ambient list of real draws, one per loop iteration.
* Methods that can raise are embedded with `Except`; the exception class raised by the
  source is recorded as a constructor of the error type.  A method whose body contains
  no raise statement is embedded as an `Except`-valued function that always returns
  `Except.ok`, which makes the absence of the exceptional path a stated fact.
* The pandas pipeline in `_set_volatility` (shift, log, NaN-skipping `np.std`) is
  embedded with `Option ℝ` cells, a `none` standing for the float NaN; `np.std` on a
  pandas series passes `ddof = 0`, i.e. the population standard deviation.
* Python 2 (`xrange` pins the codebase to Python 2) `round` rounds half away from zero.
* `datetime.datetime` values are embedded as integer microsecond timestamps; the
  `.days` field of a `timedelta` is the floor quotient by the microseconds in a day.
-/

open MeasureTheory ProbabilityTheory
open scoped NNReal

noncomputable section

/-- Standard normal cumulative distribution function, the embedding of
`scipy.stats.norm.cdf (x, 0.0, 1.0)`. -/
def normCdf (x : ℝ) : ℝ := (gaussianReal 0 1 (Set.Iic x)).toReal

/-- The state of `OptionPricingBase` after `initialize_variables` has populated the
market parameters (the `ticker` string and the raw `expiry` date are not read by any
of the pricing methods, so they are omitted from the embedded state). -/
structure OptionPricingBase where
  strike_price : ℝ
  volatility : ℝ
  time_to_maturity : ℝ
  risk_free_rate : ℝ
  spot_price : ℝ
  dividend : ℝ

/-- Python 2 builtin `round` at a real argument: nearest integer, ties away from zero. -/
def pyRound (x : ℝ) : ℤ := if 0 ≤ x then ⌊x + 1 / 2⌋ else ⌈x - 1 / 2⌉

namespace OptionPricingBase

/-- Embedding of `OptionPricingBase.is_call_put_parity_maintained`.  The source method
reads `spot_price`, `risk_free_rate`, `time_to_maturity` and `strike_price`, assigns no
attribute (so the stored state is unchanged), and returns the boolean equality of the
two rounded sides. -/
def is_call_put_parity_maintained (self : OptionPricingBase)
    (call_price put_price : ℝ) : Bool :=
  let lhs := call_price - put_price
  let rhs := self.spot_price -
    Real.exp (-1 * self.risk_free_rate * self.time_to_maturity) * self.strike_price
  pyRound lhs == pyRound rhs

/-- Error raised by `_get_underlying_asset_data`: `IOError` on an empty fetched series. -/
inductive DataError where
  | ioError

/-- Embedding of `np.std` on a list of floats: numpy passes `ddof = 0` through to the
pandas series, i.e. the population standard deviation. -/
def np_std (xs : List ℝ) : ℝ :=
  Real.sqrt ((xs.map fun x => (x - xs.sum / xs.length) ^ 2).sum / xs.length)

/-- NaN-skipping standard deviation of a float column (pandas `skipna` drops the NaN
cells, and the reduction of an empty column is NaN, modelled `none`). -/
def nan_std (col : List (Option ℝ)) : Option ℝ :=
  let xs := col.filterMap id
  if xs.isEmpty then none else some (np_std xs)

/-- The `log_returns` column: `np.log (Close / Close.shift 1)`.  Cell `0` divides by a
shifted-in NaN and is NaN; cell `t ≥ 1` holds `log (P_t / P_{t-1})`. -/
def log_returns_column (closes : List ℝ) : List (Option ℝ) :=
  match closes with
  | [] => []
  | _ :: _ => none :: ((closes.zip closes.tail).map fun pr => some (Real.log (pr.2 / pr.1)))

/-- Embedding of `OptionPricingBase._set_volatility` as a function of the fetched close
prices.  `_get_underlying_asset_data` raises `IOError` when the fetched series is
empty; otherwise no exception is possible and the volatility attribute is set to
`np.std (log_returns) * 252 ** 0.5`, a NaN (modelled `none`) when every log return is
NaN.  (Faithful for positive closes; `np.log` of a nonpositive float is not a real
number, outside this real-valued model.) -/

def _set_volatility (closes : List ℝ) : Except DataError (Option ℝ) :=
  match closes with
  | [] => Except.error DataError.ioError
  | _ :: _ =>
    Except.ok ((nan_std (log_returns_column closes)).map fun d_std =>
      d_std * (252 : ℝ) ^ (0.5 : ℝ))

/-- Microseconds per day, the unit conversion behind `timedelta.days`. -/
def usecPerDay : ℤ := 86400000000

/-- The `.days` field of a Python `timedelta` of `delta` microseconds (floor quotient). -/
def timedelta_days (delta : ℤ) : ℤ := Int.fdiv delta usecPerDay

/-- Error raised by `_set_time_to_maturity`: `ValueError` on a past expiry date. -/
inductive ExpiryError where
  | valueError

/-- Embedding of `OptionPricingBase._set_time_to_maturity`, over microsecond timestamps
for the expiry date and for `datetime.datetime.today()` (the source calls `today()`
twice a few microseconds apart; the model uses one instant). -/
def _set_time_to_maturity (expiry today : ℤ) : Except ExpiryError ℝ :=
  if expiry < today then Except.error ExpiryError.valueError
  else Except.ok ((timedelta_days (expiry - today) : ℝ) / 365.0)

end OptionPricingBase

namespace EuropeanOptionPricing

/-- Embedding of `EuropeanOptionPricing._calculate_d1`. -/
def _calculate_d1 (self : OptionPricingBase) : ℝ :=
  (Real.log (self.spot_price / self.strike_price) +
      (self.risk_free_rate - self.dividend + 0.5 * self.volatility ^ 2) *
        self.time_to_maturity) /
    (self.volatility * Real.sqrt self.time_to_maturity)

/-- Embedding of `EuropeanOptionPricing._calculate_d2`. -/
def _calculate_d2 (self : OptionPricingBase) : ℝ :=
  (Real.log (self.spot_price / self.strike_price) +
      (self.risk_free_rate - self.dividend - 0.5 * self.volatility ^ 2) *
        self.time_to_maturity) /
    (self.volatility * Real.sqrt self.time_to_maturity)

/-- Embedding of `EuropeanOptionPricing.calculate_option_prices`. -/
def calculate_option_prices (self : OptionPricingBase) : ℝ × ℝ :=
  let d1 := _calculate_d1 self
  let d2 := _calculate_d2 self
  let call := self.spot_price * Real.exp (-1 * self.dividend * self.time_to_maturity) *
      normCdf d1 -
    self.strike_price * Real.exp (-1 * self.risk_free_rate * self.time_to_maturity) *
      normCdf d2
  let put := self.strike_price * Real.exp (-1 * self.risk_free_rate * self.time_to_maturity) *
      normCdf (-1 * d2) -
    self.spot_price * Real.exp (-1 * self.dividend * self.time_to_maturity) *
      normCdf (-1 * d1)
  (call, put)

/-- The exception class the specification expects the pricing path to raise. -/
inductive PricingError where
  | invalidParameter

/-- Run of `EuropeanOptionPricing.calculate_option_prices` with its exceptional behaviour made
explicit: the bodies of `_calculate_d1`, `_calculate_d2` and `calculate_option_prices`
contain no raise statement and no guard on `volatility` or `time_to_maturity` (numpy
division of a float by zero warns and yields inf/NaN, it does not raise), so every call
returns normally. -/
def calculate_option_prices_run (self : OptionPricingBase) :
    Except PricingError (ℝ × ℝ) :=
  Except.ok (calculate_option_prices self)

end EuropeanOptionPricing

namespace AmericanOptionPricing

/-- Embedding of `AmericanOptionPricing.SIMULATION_COUNT`. -/
def SIMULATION_COUNT : ℕ := 100000

/-- Embedding of `AmericanOptionPricing._generate_asset_price`; the `gauss(0.0, 1.0)`
draw of the trial is the explicit argument `ε`. -/
def _generate_asset_price (self : OptionPricingBase) (ε : ℝ) : ℝ :=
  self.spot_price * Real.exp
    ((self.risk_free_rate - 0.5 * self.volatility ^ 2) * self.time_to_maturity +
      self.volatility * Real.sqrt self.time_to_maturity * ε)

/-- Embedding of `AmericanOptionPricing._call_payoff`. -/
def _call_payoff (self : OptionPricingBase) (expected_price : ℝ) : ℝ :=
  max 0 (expected_price - self.strike_price)

/-- Embedding of `AmericanOptionPricing._put_payoff`. -/
def _put_payoff (self : OptionPricingBase) (expected_price : ℝ) : ℝ :=
  max 0 (self.strike_price - expected_price)

/-- Embedding of `AmericanOptionPricing._generate_simulations`: one asset-price sample
per draw, shared by the call side and the put side of the trial. -/
def _generate_simulations (self : OptionPricingBase) (draws : List ℝ) :
    List ℝ × List ℝ :=
  (draws.map fun ε => _call_payoff self (_generate_asset_price self ε),
   draws.map fun ε => _put_payoff self (_generate_asset_price self ε))

/-- Embedding of `AmericanOptionPricing.calculate_option_prices`; `draws` is the list
of `gauss(0.0, 1.0)` samples consumed by the `SIMULATION_COUNT` loop iterations. -/
def calculate_option_prices (self : OptionPricingBase) (draws : List ℝ) : ℝ × ℝ :=
  let sims := _generate_simulations self draws
  let discount_factor := Real.exp (-1 * self.risk_free_rate * self.time_to_maturity)
  (discount_factor * (sims.1.sum / sims.1.length),
   discount_factor * (sims.2.sum / sims.2.length))

/-- Run of `AmericanOptionPricing.calculate_option_prices` with its exceptional behaviour made
explicit: no method on the simulation path contains a raise statement or a guard on
`volatility` / `time_to_maturity`, so every call returns normally. -/
def calculate_option_prices_run (self : OptionPricingBase) (draws : List ℝ) :
    Except EuropeanOptionPricing.PricingError (ℝ × ℝ) :=
  Except.ok (calculate_option_prices self draws)

end AmericanOptionPricing

/-! Specification-side definitions, written from the wording of the specification and
of the claims, to be compared with the source embeddings above. -/

/-- Spec formula: `d1 = (ln(S/K) + (r - q + 0.5 σ^2) T) / (σ √T)`. -/
def spec_d1 (S K r q σ T : ℝ) : ℝ :=
  (Real.log (S / K) + (r - q + 0.5 * σ ^ 2) * T) / (σ * Real.sqrt T)

/-- Spec formula: `d2 = d1 - σ √T`. -/
def spec_d2 (S K r q σ T : ℝ) : ℝ := spec_d1 S K r q σ T - σ * Real.sqrt T

/-- Spec formula: `call = S e^{-qT} N(d1) - K e^{-rT} N(d2)`. -/
def spec_call (S K r q σ T : ℝ) : ℝ :=
  S * Real.exp (-(q * T)) * normCdf (spec_d1 S K r q σ T) -
    K * Real.exp (-(r * T)) * normCdf (spec_d2 S K r q σ T)

/-- Spec formula: `put = K e^{-rT} N(-d2) - S e^{-qT} N(-d1)`. -/
def spec_put (S K r q σ T : ℝ) : ℝ :=
  K * Real.exp (-(r * T)) * normCdf (-(spec_d2 S K r q σ T)) -
    S * Real.exp (-(q * T)) * normCdf (-(spec_d1 S K r q σ T))

/-- Spec formula: terminal price `S_T = S exp((r - 0.5 σ^2) T + σ √T ε)` of one trial
(the drift has no dividend-yield term). -/
def spec_terminal_price (self : OptionPricingBase) (ε : ℝ) : ℝ :=
  self.spot_price * Real.exp
    ((self.risk_free_rate - 0.5 * self.volatility ^ 2) * self.time_to_maturity +
      self.volatility * Real.sqrt self.time_to_maturity * ε)

/-- Spec formula: `e^{-rT}` times the arithmetic mean over all trials of the call
payoffs `max (0, S_T - K)`. -/
def spec_mc_call_price (self : OptionPricingBase) (draws : List ℝ) : ℝ :=
  Real.exp (-(self.risk_free_rate * self.time_to_maturity)) *
    ((draws.map fun ε => max 0 (spec_terminal_price self ε - self.strike_price)).sum /
      draws.length)

/-- Spec formula: `e^{-rT}` times the arithmetic mean over all trials of the put
payoffs `max (0, K - S_T)`. -/
def spec_mc_put_price (self : OptionPricingBase) (draws : List ℝ) : ℝ :=
  Real.exp (-(self.risk_free_rate * self.time_to_maturity)) *
    ((draws.map fun ε => max 0 (self.strike_price - spec_terminal_price self ε)).sum /
      draws.length)

/-- Spec formula: the consecutive log returns `ln (P_t / P_{t-1})` of a price series. -/
def consecutive_log_returns (ps : List ℝ) : List ℝ :=
  (ps.zip ps.tail).map fun pr => Real.log (pr.2 / pr.1)

/-- Spec wording: the standard deviation of the sample of returns (the claim pairs
this with an exact `0.0` on a two-observation constant series, which fixes the
un-Bessel-corrected convention, the one `np.std` uses). -/
def sample_std_dev (xs : List ℝ) : ℝ :=
  Real.sqrt ((xs.map fun x => (x - xs.sum / xs.length) ^ 2).sum / xs.length)

/-- Spec formula: annualized volatility, `sqrt 252` times the standard deviation of the
consecutive log returns. -/
def spec_volatility (ps : List ℝ) : ℝ :=
  sample_std_dev (consecutive_log_returns ps) * Real.sqrt 252

end

/-! Helper lemmas. -/

open OptionPricingBase

lemma gaussianReal_Iic_neg (x : ℝ) :
    gaussianReal 0 1 (Set.Iic (-x)) = gaussianReal 0 1 (Set.Ici x) := by
  have hmap := gaussianReal_map_const_mul (μ := 0) (v := 1) (-1)
  have hv : (⟨(-1 : ℝ) ^ 2, sq_nonneg _⟩ : ℝ≥0) = 1 := by
    ext
    norm_num
  rw [hv, mul_zero, one_mul] at hmap
  conv_lhs => rw [← hmap]
  rw [Measure.map_apply (measurable_const_mul _) measurableSet_Iic]
  congr 1
  ext y
  simp only [Set.mem_preimage, Set.mem_Iic, Set.mem_Ici]
  constructor <;> intro h <;> linarith

lemma normCdf_neg (x : ℝ) : normCdf (-x) = 1 - normCdf x := by
  have hsing : gaussianReal 0 1 ({x} : Set ℝ) = 0 :=
    gaussianReal_absolutelyContinuous 0 one_ne_zero (measure_singleton x)
  have hμ : gaussianReal 0 1 (Set.Iic x) + gaussianReal 0 1 (Set.Ici x) = 1 := by
    have h := measure_union_add_inter (μ := gaussianReal 0 1) (Set.Iic x)
      (measurableSet_Ici (a := x))
    rw [Set.Iic_union_Ici, Set.Iic_inter_Ici, Set.Icc_self, hsing, measure_univ,
      add_zero] at h
    exact h.symm
  have hfin1 : gaussianReal 0 1 (Set.Iic x) ≠ ⊤ := measure_ne_top _ _
  have hfin2 : gaussianReal 0 1 (Set.Ici x) ≠ ⊤ := measure_ne_top _ _
  have htr := congrArg ENNReal.toReal hμ
  rw [ENNReal.toReal_add hfin1 hfin2, ENNReal.one_toReal] at htr
  simp only [normCdf, gaussianReal_Iic_neg]
  linarith

lemma d2_eq_d1_sub_sigma_sqrtT (S K r q σ T : ℝ) (hσ : σ ≠ 0) (hT : 0 < T) :
    EuropeanOptionPricing._calculate_d2 ⟨K, σ, T, r, S, q⟩ =
      EuropeanOptionPricing._calculate_d1 ⟨K, σ, T, r, S, q⟩ - σ * Real.sqrt T := by
  have hs : Real.sqrt T ≠ 0 := ne_of_gt (Real.sqrt_pos.mpr hT)
  have hTT : Real.sqrt T * Real.sqrt T = T := Real.mul_self_sqrt hT.le
  unfold EuropeanOptionPricing._calculate_d1 EuropeanOptionPricing._calculate_d2
  simp only
  field_simp
  linear_combination (σ ^ 2) * hTT

/-- C9: for σ > 0 and T > 0 the value computed by `_calculate_d2` equals
`d1 - σ √T`, the defining equation the spec gives for d2, with d1 the value computed
by `_calculate_d1`. -/
theorem d2_code_matches_spec_d2 (S K r q σ T : ℝ) (hσ : 0 < σ) (hT : 0 < T) :
    EuropeanOptionPricing._calculate_d2 ⟨K, σ, T, r, S, q⟩ =
      EuropeanOptionPricing._calculate_d1 ⟨K, σ, T, r, S, q⟩ - σ * Real.sqrt T :=
  d2_eq_d1_sub_sigma_sqrtT S K r q σ T (ne_of_gt hσ) hT

/-- Witness for C9 at `S = 2`, `K = 1`, `r = 1`, `q = 0`, `σ = 1`, `T = 1`. -/
theorem d2_code_matches_spec_d2_witness :
    EuropeanOptionPricing._calculate_d2 ⟨1, 1, 1, 1, 2, 0⟩ =
      EuropeanOptionPricing._calculate_d1 ⟨1, 1, 1, 1, 2, 0⟩ - 1 * Real.sqrt 1 :=
  d2_code_matches_spec_d2 2 1 1 0 1 1 (by norm_num) (by norm_num)

lemma european_prices_eq (b : OptionPricingBase) :
    EuropeanOptionPricing.calculate_option_prices b =
      (b.spot_price * Real.exp (-1 * b.dividend * b.time_to_maturity) *
          normCdf (EuropeanOptionPricing._calculate_d1 b) -
        b.strike_price * Real.exp (-1 * b.risk_free_rate * b.time_to_maturity) *
          normCdf (EuropeanOptionPricing._calculate_d2 b),
       b.strike_price * Real.exp (-1 * b.risk_free_rate * b.time_to_maturity) *
          normCdf (-1 * EuropeanOptionPricing._calculate_d2 b) -
        b.spot_price * Real.exp (-1 * b.dividend * b.time_to_maturity) *
          normCdf (-1 * EuropeanOptionPricing._calculate_d1 b)) := rfl

/-- C1: for every positive spot `S`, strike `K`, volatility `σ`, time-to-maturity `T`,
real rate `r` and dividend yield `q ≥ 0`, the analytic pricer returns
`call = S e^{-qT} N(d1) - K e^{-rT} N(d2)` and `put = K e^{-rT} N(-d2) - S e^{-qT} N(-d1)`
with `d1 = (ln(S/K) + (r - q + 0.5 σ^2) T) / (σ √T)`, `d2 = d1 - σ √T`, and `N` the
standard normal CDF. -/
theorem european_prices_match_black_scholes (S K r q σ T : ℝ)
    (hS : 0 < S) (hK : 0 < K) (hσ : 0 < σ) (hT : 0 < T) (hq : 0 ≤ q) :
    EuropeanOptionPricing.calculate_option_prices ⟨K, σ, T, r, S, q⟩ =
      (spec_call S K r q σ T, spec_put S K r q σ T) := by
  have hd2 := d2_eq_d1_sub_sigma_sqrtT S K r q σ T (ne_of_gt hσ) hT
  have hd1 : EuropeanOptionPricing._calculate_d1 ⟨K, σ, T, r, S, q⟩ =
      spec_d1 S K r q σ T := rfl
  rw [european_prices_eq, hd2, hd1]
  simp only [spec_call, spec_put, spec_d2, neg_mul, one_mul]

/-- Witness for C1 at `S = 2`, `K = 1`, `r = 1`, `q = 0`, `σ = 1`, `T = 1`. -/
theorem european_prices_match_black_scholes_witness :
    EuropeanOptionPricing.calculate_option_prices ⟨1, 1, 1, 1, 2, 0⟩ =
      (spec_call 2 1 1 0 1 1, spec_put 2 1 1 0 1 1) :=
  european_prices_match_black_scholes 2 1 1 0 1 1 (by norm_num) (by norm_num)
    (by norm_num) (by norm_num) (by norm_num)

/-- C2: for all `S, K, r, σ, T > 0` with dividend yield `0`, the analytic call and put
satisfy put-call parity exactly over the reals: `call - put = S - K e^{-rT}`. -/
theorem european_put_call_parity (S K r σ T : ℝ)
    (hS : 0 < S) (hK : 0 < K) (hr : 0 < r) (hσ : 0 < σ) (hT : 0 < T) :
    (EuropeanOptionPricing.calculate_option_prices ⟨K, σ, T, r, S, 0⟩).1 -
      (EuropeanOptionPricing.calculate_option_prices ⟨K, σ, T, r, S, 0⟩).2 =
      S - K * Real.exp (-(r * T)) := by
  rw [european_prices_eq]
  simp only [neg_mul, one_mul]
  rw [normCdf_neg, normCdf_neg]
  simp only [zero_mul, neg_zero, Real.exp_zero, one_mul]
  ring

/-- Witness for C2 at `S = 2`, `K = 1`, `r = 1`, `σ = 1`, `T = 1`. -/
theorem european_put_call_parity_witness :
    (EuropeanOptionPricing.calculate_option_prices ⟨1, 1, 1, 1, 2, 0⟩).1 -
      (EuropeanOptionPricing.calculate_option_prices ⟨1, 1, 1, 1, 2, 0⟩).2 =
      2 - 1 * Real.exp (-(1 * 1)) :=
  european_put_call_parity 2 1 1 1 1 (by norm_num) (by norm_num) (by norm_num)
    (by norm_num) (by norm_num)

lemma american_prices_eq (b : OptionPricingBase) (draws : List ℝ) :
    AmericanOptionPricing.calculate_option_prices b draws =
      (Real.exp (-1 * b.risk_free_rate * b.time_to_maturity) *
        ((draws.map fun ε => AmericanOptionPricing._call_payoff b
            (AmericanOptionPricing._generate_asset_price b ε)).sum /
          (draws.map fun ε => AmericanOptionPricing._call_payoff b
            (AmericanOptionPricing._generate_asset_price b ε)).length),
       Real.exp (-1 * b.risk_free_rate * b.time_to_maturity) *
        ((draws.map fun ε => AmericanOptionPricing._put_payoff b
            (AmericanOptionPricing._generate_asset_price b ε)).sum /
          (draws.map fun ε => AmericanOptionPricing._put_payoff b
            (AmericanOptionPricing._generate_asset_price b ε)).length)) := rfl

/-- C3: with the trial draws `ε_i` made explicit, each trial computes the terminal
price `S_T = S exp((r - 0.5 σ^2) T + σ √T ε)` (no dividend-yield term in the drift),
the payoffs are `max (0, S_T - K)` and `max (0, K - S_T)` on a shared sample, and each
returned price is `e^{-rT}` times the arithmetic mean of that side's payoffs over the
`SIMULATION_COUNT` trials. -/
theorem american_prices_are_discounted_mean_payoffs (b : OptionPricingBase)
    (draws : List ℝ) (hM : draws.length = AmericanOptionPricing.SIMULATION_COUNT) :
    AmericanOptionPricing.calculate_option_prices b draws =
      (spec_mc_call_price b draws, spec_mc_put_price b draws) := by
  rw [american_prices_eq]
  simp only [spec_mc_call_price, spec_mc_put_price, spec_terminal_price,
    AmericanOptionPricing._call_payoff, AmericanOptionPricing._put_payoff,
    AmericanOptionPricing._generate_asset_price, List.length_map, neg_mul, one_mul]

/-- Witness for C3 on the all-zero draw list of length `SIMULATION_COUNT`. -/
theorem american_prices_are_discounted_mean_payoffs_witness :
    AmericanOptionPricing.calculate_option_prices ⟨1, 1, 1, 1, 2, 0⟩
        (List.replicate AmericanOptionPricing.SIMULATION_COUNT 0) =
      (spec_mc_call_price ⟨1, 1, 1, 1, 2, 0⟩
          (List.replicate AmericanOptionPricing.SIMULATION_COUNT 0),
       spec_mc_put_price ⟨1, 1, 1, 1, 2, 0⟩
          (List.replicate AmericanOptionPricing.SIMULATION_COUNT 0)) :=
  american_prices_are_discounted_mean_payoffs _ _ (by simp)

/-- C10: for every state and every sequence of random draws, both prices returned by
the simulation pricer are nonnegative: every per-trial payoff is a `max (0, _)` and the
discount factor `e^{-rT}` is positive. -/
theorem american_prices_nonneg (b : OptionPricingBase) (draws : List ℝ) :
    0 ≤ (AmericanOptionPricing.calculate_option_prices b draws).1 ∧
      0 ≤ (AmericanOptionPricing.calculate_option_prices b draws).2 := by
  rw [american_prices_eq]
  constructor <;>
  · refine mul_nonneg (Real.exp_pos _).le (div_nonneg ?_ (Nat.cast_nonneg _))
    refine List.sum_nonneg ?_
    intro x hx
    simp only [List.mem_map] at hx
    obtain ⟨ε, hε, rfl⟩ := hx
    simp only [AmericanOptionPricing._call_payoff, AmericanOptionPricing._put_payoff]
    exact le_max_left 0 _

/-- C4: `is_call_put_parity_maintained call put` is true iff
`round (call - put) = round (S - e^{-rT} K)` under nearest-integer rounding (ties away
from zero, the Python 2 builtin), the stored dividend yield influences neither side,
the result is of type `Bool`, and the embedding is a pure function of the state: the
source method assigns no attribute. -/
theorem parity_check_matches_rounded_identity (b : OptionPricingBase)
    (call_price put_price q : ℝ) :
    (b.is_call_put_parity_maintained call_price put_price = true ↔
      pyRound (call_price - put_price) =
        pyRound (b.spot_price -
          Real.exp (-(b.risk_free_rate * b.time_to_maturity)) * b.strike_price)) ∧
      OptionPricingBase.is_call_put_parity_maintained { b with dividend := q }
          call_price put_price =
        b.is_call_put_parity_maintained call_price put_price := by
  constructor
  · simp only [OptionPricingBase.is_call_put_parity_maintained, beq_iff_eq,
      neg_mul, one_mul]
  · rfl

/-- Counterexample to C6 as stated: at volatility `σ = 0` (a zero-variance history)
and `T = 1 > 0`, neither pricer raises `InvalidParameterError`: both calls return
normally. -/
theorem pricers_do_not_raise_at_sigma_zero :
    EuropeanOptionPricing.calculate_option_prices_run ⟨100, 0, 1, 1 / 20, 100, 0⟩ ≠
        Except.error EuropeanOptionPricing.PricingError.invalidParameter ∧
      AmericanOptionPricing.calculate_option_prices_run ⟨100, 0, 1, 1 / 20, 100, 0⟩ ([0] : List ℝ) ≠
        Except.error EuropeanOptionPricing.PricingError.invalidParameter :=
  ⟨fun h => Except.noConfusion h, fun h => Except.noConfusion h⟩

/-- C6 amended: neither the analytic nor the simulation pricer guards against
`σ ≤ 0` or `T ≤ 0`: on every such input the pricing call raises nothing and returns
normally (in floating point the unguarded division by `σ √T = 0` propagates inf/NaN
values instead). -/
theorem pricers_never_raise (b : OptionPricingBase) (draws : List ℝ)
    (h : b.volatility ≤ 0 ∨ b.time_to_maturity ≤ 0) :
    EuropeanOptionPricing.calculate_option_prices_run b =
        Except.ok (EuropeanOptionPricing.calculate_option_prices b) ∧
      AmericanOptionPricing.calculate_option_prices_run b draws =
        Except.ok (AmericanOptionPricing.calculate_option_prices b draws) :=
  ⟨rfl, rfl⟩

/-- Witness for the amended C6 at `σ = 0`, `T = 2`. -/
theorem pricers_never_raise_witness :
    EuropeanOptionPricing.calculate_option_prices_run ⟨100, 0, 2, 1 / 20, 100, 0⟩ =
        Except.ok
          (EuropeanOptionPricing.calculate_option_prices ⟨100, 0, 2, 1 / 20, 100, 0⟩) ∧
      AmericanOptionPricing.calculate_option_prices_run ⟨100, 0, 2, 1 / 20, 100, 0⟩ ([1] : List ℝ) =
        Except.ok
          (AmericanOptionPricing.calculate_option_prices ⟨100, 0, 2, 1 / 20, 100, 0⟩ ([1] : List ℝ)) :=
  pricers_never_raise _ _ (Or.inl (by norm_num))

/-- Counterexample to C7 as stated: on the one-observation series `[100]` the
volatility estimation raises nothing: it completes and stores the NaN reduction of an
empty return column (`none`), so fewer than 2 observations do not imply
`DataUnavailableError`. -/
theorem volatility_single_observation_returns :
    OptionPricingBase._set_volatility [100] = Except.ok none := rfl

/-- C7 amended: the volatility estimation raises only for the empty fetched series
(the `IOError` of `_get_underlying_asset_data`); a single-observation series raises
nothing and sets the volatility to NaN (`none`), not a numeric value. -/
theorem volatility_error_only_on_empty_series :
    OptionPricingBase._set_volatility [] =
        Except.error OptionPricingBase.DataError.ioError ∧
      ∀ c : ℝ, OptionPricingBase._set_volatility [c] = Except.ok none :=
  ⟨rfl, fun _ => rfl⟩

/-- Counterexample to C8 as stated: with the expiry timestamp exactly equal to today's
(`expiry ≤ today` holds), `_set_time_to_maturity` raises nothing and sets the
time-to-maturity to `0.0`. -/
theorem time_to_maturity_expiry_equals_today :
    (0 : ℤ) ≤ 0 ∧ OptionPricingBase._set_time_to_maturity 0 0 = Except.ok 0 := by
  refine ⟨le_refl 0, ?_⟩
  simp [OptionPricingBase._set_time_to_maturity, OptionPricingBase.timedelta_days,
    Int.zero_fdiv]

/-- C8 amended: the source guard is strict: `ValueError` (the spec's
`InvalidExpiryError`) is raised iff `expiry < today`; an expiry equal to today is
accepted, and on every accepted expiry the time-to-maturity is set to
`(expiry - today).days / 365.0` years, which is `0.0` whenever the expiry is less than
one day ahead. -/
theorem time_to_maturity_error_iff_strictly_past (expiry today : ℤ) :
    (OptionPricingBase._set_time_to_maturity expiry today =
        Except.error OptionPricingBase.ExpiryError.valueError ↔ expiry < today) ∧
      (today ≤ expiry →
        OptionPricingBase._set_time_to_maturity expiry today =
          Except.ok
            ((OptionPricingBase.timedelta_days (expiry - today) : ℝ) / 365.0)) := by
  unfold OptionPricingBase._set_time_to_maturity
  by_cases h : expiry < today
  · rw [if_pos h]
    exact ⟨⟨fun _ => h, fun _ => rfl⟩, fun h2 => absurd h (not_lt.mpr h2)⟩
  · rw [if_neg h]
    exact ⟨⟨fun he => Except.noConfusion he, fun hlt => absurd hlt h⟩, fun _ => rfl⟩

/-- Witness for the amended C8 with an expiry two days (in microseconds) ahead. -/
theorem time_to_maturity_error_iff_strictly_past_witness :
    OptionPricingBase._set_time_to_maturity 172800000000 0 =
      Except.ok ((OptionPricingBase.timedelta_days (172800000000 - 0) : ℝ) / 365.0) :=
  (time_to_maturity_error_iff_strictly_past 172800000000 0).2 (by norm_num)

lemma np_std_eq_sample_std_dev : OptionPricingBase.np_std = sample_std_dev := rfl

lemma log_returns_column_cons (c : ℝ) (rest : List ℝ) :
    OptionPricingBase.log_returns_column (c :: rest) =
      none :: (consecutive_log_returns (c :: rest)).map some := by
  simp [OptionPricingBase.log_returns_column, consecutive_log_returns, List.map_map,
    Function.comp]

lemma consecutive_log_returns_length (ps : List ℝ) :
    (consecutive_log_returns ps).length = ps.length - 1 := by
  simp [consecutive_log_returns, List.length_zip]

lemma rpow_half_252 : (252 : ℝ) ^ (0.5 : ℝ) = Real.sqrt 252 := by
  rw [show (0.5 : ℝ) = 1 / 2 by norm_num, ← Real.sqrt_eq_rpow]

lemma set_volatility_eq (closes : List ℝ) (h2 : 2 ≤ closes.length) :
    OptionPricingBase._set_volatility closes =
      Except.ok (some (spec_volatility closes)) := by
  cases closes with
  | nil => simp at h2
  | cons c rest =>
    have hlen : (consecutive_log_returns (c :: rest)).length = rest.length := by
      rw [consecutive_log_returns_length]
      simp
    have hne : (consecutive_log_returns (c :: rest)).isEmpty = false := by
      rw [List.isEmpty_eq_false]
      intro hcon
      rw [hcon] at hlen
      simp only [List.length_nil] at hlen
      rw [List.length_cons, ← hlen] at h2
      simp at h2
    have hfm : List.filterMap id
        (none :: (consecutive_log_returns (c :: rest)).map some) =
          consecutive_log_returns (c :: rest) := by
      simp
    show Except.ok _ = _
    rw [log_returns_column_cons]
    simp only [OptionPricingBase.nan_std, hfm, hne, Bool.false_eq_true, if_false,
      Option.map_some, np_std_eq_sample_std_dev, rpow_half_252]
    rfl

lemma sample_std_dev_of_all_zero {xs : List ℝ} (h : ∀ x ∈ xs, x = 0) :
    sample_std_dev xs = 0 := by
  have hsum : xs.sum = 0 := List.sum_eq_zero h
  have hsq : (xs.map fun x => (x - xs.sum / xs.length) ^ 2).sum = 0 := by
    refine List.sum_eq_zero ?_
    intro y hy
    simp only [List.mem_map] at hy
    obtain ⟨x, hx, rfl⟩ := hy
    rw [h x hx, hsum]
    simp
  unfold sample_std_dev
  rw [hsq]
  simp

lemma consecutive_log_returns_replicate_zero {c : ℝ} (hc : 0 < c) (n : ℕ) :
    ∀ x ∈ consecutive_log_returns (List.replicate n c), x = 0 := by
  intro x hx
  simp only [consecutive_log_returns, List.mem_map] at hx
  obtain ⟨⟨a, b⟩, hpr, rfl⟩ := hx
  have hmem := List.of_mem_zip hpr
  have ha : a = c := List.eq_of_mem_replicate hmem.1
  have hb : b = c := by
    have htl : (List.replicate n c).tail = List.replicate (n - 1) c := by
      cases n <;> simp [List.replicate_succ]
    rw [htl] at hmem
    exact List.eq_of_mem_replicate hmem.2
  simp only [ha, hb]
  rw [div_self (ne_of_gt hc), Real.log_one]

/-- C5: on every price series of at least 2 positive observations the estimated
volatility equals the standard deviation of the consecutive log returns
`ln (P_t / P_{t-1})` multiplied by `sqrt 252`; in particular, on a constant
(zero-variance) price series the estimate is exactly `0.0`. -/
theorem volatility_is_annualized_std_of_log_returns :
    (∀ closes : List ℝ, 2 ≤ closes.length → (∀ p ∈ closes, 0 < p) →
        OptionPricingBase._set_volatility closes =
          Except.ok (some (spec_volatility closes))) ∧
      ∀ (c : ℝ) (n : ℕ), 0 < c → 2 ≤ n →
        OptionPricingBase._set_volatility (List.replicate n c) =
          Except.ok (some 0) := by
  constructor
  · intro closes hlen _hpos
    exact set_volatility_eq closes hlen
  · intro c n hc hn
    rw [set_volatility_eq _ (by simpa using hn)]
    have hz : spec_volatility (List.replicate n c) = 0 := by
      unfold spec_volatility
      rw [sample_std_dev_of_all_zero (consecutive_log_returns_replicate_zero hc n)]
      simp
    rw [hz]

/-- Witness for C5 on the positive two-observation series `[1, 1]` and the constant
series `replicate 2 1`. -/
theorem volatility_is_annualized_std_of_log_returns_witness :
    OptionPricingBase._set_volatility [1, 1] =
        Except.ok (some (spec_volatility [1, 1])) ∧
      OptionPricingBase._set_volatility (List.replicate 2 (1 : ℝ)) =
        Except.ok (some 0) :=
  ⟨volatility_is_annualized_std_of_log_returns.1 [1, 1] (by norm_num)
      (by intro p hp; simp at hp; simp [hp]),
    volatility_is_annualized_std_of_log_returns.2 1 2 (by norm_num) (by norm_num)⟩
